import Mathlib

/-!
Shallow embedding of `src/tradingagents-ui/src-tauri/src/main.rs`, the
backend-process supervisor of the TradingAgents desktop shell.

Modelling choices:
* Filesystem paths are `String`s; `PathBuf::push`/`Path::join` with a
  relative component is string concatenation with a `/` separator.
* The process environment is a map `String → Option String`
  (`env::var` returning `Ok`/`Err`).
* `Path::exists` is an arbitrary predicate `String → Bool`.
* `cfg!(target_os = "windows")` is a `Bool` parameter `win`.
* Tauri's `path_resolver().resolve_resource` is an arbitrary function
  `String → Option String`; `env::current_dir()` is an `Option String`
  (`none` models the `Err` case).
* A child process handle (`std::process::Child`) is an opaque token,
  modelled as `Nat`.  `Child::kill` is an oracle `Child → Except String Unit`;
  the supervisor records each kill attempt together with the oracle's
  answer in an effect log, mirroring that the Rust code sends the signal
  and discards the result (`let _ = child.kill();`).
* The `Mutex` around the handle is modelled as always acquirable: in this
  sequential embedding no thread can panic while holding the lock, so the
  `if let Ok(mut guard) = self.child.lock()` branch is always taken.
-/

/-- An opaque OS child-process handle. -/
abbrev Child := Nat

/-- The process environment, as consulted through `env::var`. -/
abbrev Env := String → Option String

/-- The outcome of one `Child::kill` attempt: the handle it targeted and
the OS answer (which the Rust code discards). -/
abbrev KillEvent := Child × Except String Unit

/-- `base.join(rel)` / `buf.push(rel)` for a relative component `rel`. -/
def pjoin (base rel : String) : String := base ++ "/" ++ rel

/-- The supervisor state: the content of `BackendState`'s
`Mutex<Option<Child>>`.  `none` is Idle, `some c` is Running. -/
abbrev BackendState := Option Child

/-- `BackendState::new` — no handle held. -/
def BackendState.new : BackendState := none

/-- `BackendState::replace` — unconditionally store the new handle
(`*guard = Some(child)`), dropping any previous one without signalling
it.  The second component is the (empty) list of kill attempts. -/
def BackendState.replace (_s : BackendState) (c : Child) :
    BackendState × List KillEvent :=
  (some c, [])

/-- `BackendState::stop` — take the handle if present, send it a kill
signal and discard the OS answer; a no-op when no handle is held.
`killRes` is the oracle answering each `Child::kill` call. -/
def BackendState.stop (killRes : Child → Except String Unit)
    (s : BackendState) : BackendState × List KillEvent :=
  match s with
  | none => (none, [])
  | some c => (none, [(c, killRes c)])

/-- Number of handles held by a supervisor state. -/
def handleCount (s : BackendState) : Nat :=
  match s with
  | none => 0
  | some _ => 1

/-- An abstract operation on the supervisor state. -/
inductive SupOp where
  | replaceOp (c : Child)
  | stopOp
deriving DecidableEq, Repr

/-- Run a sequence of supervisor operations from `BackendState.new`,
ignoring the effect logs. -/
def runOps (killRes : Child → Except String Unit)
    (ops : List SupOp) : BackendState :=
  ops.foldl
    (fun s op =>
      match op with
      | .replaceOp c => (s.replace c).1
      | .stopOp => (BackendState.stop killRes s).1)
    BackendState.new

/-- The platform-specific interpreter sub-path pushed under a virtual
environment root: `<root>/Scripts/python.exe` on Windows,
`<root>/bin/python` elsewhere. -/
def venvCandidate (venv : String) (win : Bool) : String :=
  if win then pjoin (pjoin venv "Scripts") "python.exe"
  else pjoin (pjoin venv "bin") "python"

/-- The platform default bare interpreter name. -/
def pythonDefault (win : Bool) : String :=
  if win then "python.exe" else "python3"

/-- The tail of `preferred_python` after the `TRADINGAGENTS_PYTHON`
override has been rejected or was unset: try the `VIRTUAL_ENV`-derived
candidate, then fall back to the platform default. -/
def preferredPythonTail (env : Env) (ex : String → Bool) (win : Bool) :
    String :=
  match env "VIRTUAL_ENV" with
  | some venv =>
      if ex (venvCandidate venv win) then venvCandidate venv win
      else pythonDefault win
  | none => pythonDefault win

/-- `preferred_python` — resolve the interpreter path from the
environment `env`, the filesystem-existence predicate `ex` and the
platform flag `win`. -/
def preferred_python (env : Env) (ex : String → Bool) (win : Bool) :
    String :=
  match env "TRADINGAGENTS_PYTHON" with
  | some explicit =>
      if ex explicit then explicit else preferredPythonTail env ex win
  | none => preferredPythonTail env ex win

/-- The fixed resource-relative candidate names of
`locate_backend_script`. -/
def resource_candidates : List String :=
  ["run_backend.py", "../run_backend.py", "../../run_backend.py"]

/-- The fixed working-directory-relative candidate names of
`locate_backend_script`. -/
def cwdRelatives : List String :=
  ["run_backend.py", "../run_backend.py"]

/-- The resource-resolution phase of `locate_backend_script`: resolve
each fixed candidate through the app's resource lookup and return the
first resolved path that exists. -/
def locateFromResources (resolve : String → Option String)
    (ex : String → Bool) : Option String :=
  resource_candidates.findSome? fun candidate =>
    match resolve candidate with
    | some path => if ex path then some path else none
    | none => none

/-- The working-directory phase of `locate_backend_script`:
`env::current_dir().unwrap_or_else(|_| PathBuf::from("."))`, then the
first joined candidate that exists. -/
def locateFromCwd (cwdRes : Option String) (ex : String → Bool) :
    Option String :=
  cwdRelatives.findSome? fun rel =>
    if ex (pjoin (cwdRes.getD ".") rel) then some (pjoin (cwdRes.getD ".") rel)
    else none

/-- `locate_backend_script` — find the backend entry script, trying the
`TRADINGAGENTS_BACKEND_SCRIPT` override, then the bundled-resource
candidates, then the working-directory candidates; `none` when all are
exhausted. -/
def locate_backend_script (env : Env) (resolve : String → Option String)
    (cwdRes : Option String) (ex : String → Bool) : Option String :=
  (match env "TRADINGAGENTS_BACKEND_SCRIPT" with
   | some explicit => if ex explicit then some explicit else none
   | none => none).orElse fun _ =>
    (locateFromResources resolve ex).orElse fun _ =>
      locateFromCwd cwdRes ex

/-- Configuration of one standard stream of a spawned command. -/
inductive StreamCfg where
  | nullStream
  | inheritStream
  | pipedStream
deriving DecidableEq, Repr

/-- The spawn command built by `spawn_backend`: program, arguments and
the three standard-stream configurations. -/
structure SpawnCmd where
  program : String
  args : List String
  stdinCfg : StreamCfg
  stdoutCfg : StreamCfg
  stderrCfg : StreamCfg
deriving DecidableEq, Repr

/-- `spawn_backend` — locate the script (`Err` with the not-found
message when absent), resolve the interpreter, and hand the fully
configured command to the OS spawn oracle `spawnRes`. -/
def spawn_backend (env : Env) (resolve : String → Option String)
    (cwdRes : Option String) (ex : String → Bool) (win : Bool)
    (spawnRes : SpawnCmd → Except String Child) : Except String Child :=
  match locate_backend_script env resolve cwdRes ex with
  | none => .error "run_backend.py not found"
  | some script_path =>
      spawnRes
        { program := preferred_python env ex win
          args := [script_path]
          stdinCfg := .nullStream
          stdoutCfg := .nullStream
          stderrCfg := .nullStream }

/-- The diagnostic printed by `main`'s setup hook when `spawn_backend`
fails. -/
def spawnWarning : String :=
  "warning: failed to spawn FastAPI backend. Launch manually with `python run_backend.py --reload`."

/-- The setup hook of `main`: on a successful spawn store the handle,
otherwise leave the state alone and emit the warning. -/
def setupStart (result : Except String Child) (s : BackendState) :
    BackendState × Option String :=
  match result with
  | .ok child => ((s.replace child).1, none)
  | .error _ => (s, some spawnWarning)

/-- Modelled from the spec's words for the Interpreter Resolver claim
(case 1): the override variable's path, accepted only when it exists. -/
def envOverridePython (env : Env) (ex : String → Bool) : Option String :=
  (env "TRADINGAGENTS_PYTHON").bind fun p => if ex p then some p else none

/-- Modelled from the spec's words for the Interpreter Resolver claim
(case 2): the virtual-environment-derived path, accepted only when it
exists. -/
def envVenvPython (env : Env) (ex : String → Bool) (win : Bool) :
    Option String :=
  (env "VIRTUAL_ENV").bind fun v =>
    if ex (venvCandidate v win) then some (venvCandidate v win) else none

/-- Modelled from the spec's words: override if set and existing, else
the venv-derived path if set and existing, else the platform default
unconditionally. -/
def spec_preferred_python (env : Env) (ex : String → Bool) (win : Bool) :
    String :=
  (Option.or (envOverridePython env ex) (envVenvPython env ex win)).getD
    (pythonDefault win)

/-- Modelled from the spec's words for the Script Locator claim: the
full ordered candidate list — the override path (when the variable is
set), then the successfully resource-resolved candidates, then the two
working-directory joins. -/
def spec_script_candidates (env : Env) (resolve : String → Option String)
    (cwdRes : Option String) : List String :=
  (env "TRADINGAGENTS_BACKEND_SCRIPT").toList
    ++ resource_candidates.filterMap resolve
    ++ cwdRelatives.map (pjoin (cwdRes.getD "."))

/-- The resource phase is a first-match search over the successfully
resolved candidates. -/
theorem findSome_resolve_eq (resolve : String → Option String)
    (ex : String → Bool) (l : List String) :
    (l.findSome? fun candidate =>
      match resolve candidate with
      | some path => if ex path then some path else none
      | none => none) = (l.filterMap resolve).find? ex := by
  induction l with
  | nil => rfl
  | cons c l ih =>
      cases h : resolve c with
      | none => simpa [List.findSome?_cons, List.filterMap_cons, h] using ih
      | some p =>
          by_cases hp : ex p <;>
            simp [List.findSome?_cons, List.filterMap_cons, h, hp, ih]

/-- The working-directory phase is a first-match search over the joined
candidates. -/
theorem findSome_join_eq (cwd : String) (ex : String → Bool)
    (l : List String) :
    (l.findSome? fun rel =>
      if ex (pjoin cwd rel) then some (pjoin cwd rel) else none)
      = (l.map (pjoin cwd)).find? ex := by
  induction l with
  | nil => rfl
  | cons r l ih =>
      by_cases h : ex (pjoin cwd r) <;>
        simp [List.findSome?_cons, List.map_cons, h, ih]

/-- Claim C1: the supervisor holds at most one live child handle at any
time — any sequence of `replace`/`stop` operations from `new` keeps the
handle count at most 1; `replace` leaves exactly one handle (the new
one), and the subsequent `stop` leaves none. -/
theorem backend_state_at_most_one_handle
    (killRes : Child → Except String Unit) (ops : List SupOp)
    (s : BackendState) (c : Child) :
    handleCount (runOps killRes ops) ≤ 1 ∧
    (s.replace c).1 = some c ∧
    handleCount (s.replace c).1 = 1 ∧
    (BackendState.stop killRes (s.replace c).1).1 = none ∧
    handleCount (BackendState.stop killRes (s.replace c).1).1 = 0 := by
  refine ⟨?_, rfl, rfl, rfl, rfl⟩
  cases runOps killRes ops <;> simp [handleCount]

/-- Claim C2: `preferred_python` returns the existing override path,
else the existing venv-derived path, else the platform default with no
existence check — i.e. it coincides with the spec-modelled resolver —
and the derived/default shapes are exactly the ones the spec names. -/
theorem preferred_python_matches_spec (env : Env) (ex : String → Bool)
    (win : Bool) (v : String) :
    preferred_python env ex win = spec_preferred_python env ex win ∧
    venvCandidate v true = v ++ "/Scripts/python.exe" ∧
    venvCandidate v false = v ++ "/bin/python" ∧
    pythonDefault true = "python.exe" ∧
    pythonDefault false = "python3" := by
  refine ⟨?_, ?_, ?_, rfl, rfl⟩
  · unfold preferred_python spec_preferred_python preferredPythonTail
      envOverridePython envVenvPython
    cases env "TRADINGAGENTS_PYTHON" with
    | none =>
        cases env "VIRTUAL_ENV" with
        | none => rfl
        | some w => by_cases h : ex (venvCandidate w win) <;> simp [h, Option.or]
    | some p =>
        by_cases hp : ex p
        · simp [hp, Option.or]
        · cases env "VIRTUAL_ENV" with
          | none => simp [hp, Option.or]
          | some w =>
              by_cases h : ex (venvCandidate w win) <;>
                simp [hp, h, Option.or]
  · simp [venvCandidate, pjoin, String.append_assoc]
  · simp [venvCandidate, pjoin, String.append_assoc]

/-- Claim C3: `locate_backend_script` returns the first existing path of
the spec's ordered candidate list — override, then the three resolved
resource candidates, then the two working-directory joins — and `none`
(an absent result, not an error) when all are exhausted. -/
theorem locate_backend_script_matches_spec (env : Env)
    (resolve : String → Option String) (cwdRes : Option String)
    (ex : String → Bool) :
    locate_backend_script env resolve cwdRes ex
      = (spec_script_candidates env resolve cwdRes).find? ex := by
  unfold locate_backend_script spec_script_candidates
  rw [List.find?_append, List.find?_append, ← findSome_resolve_eq,
    ← findSome_join_eq]
  rw [show (resource_candidates.findSome? fun candidate =>
      match resolve candidate with
      | some path => if ex path then some path else none
      | none => none) = locateFromResources resolve ex from rfl]
  rw [show (cwdRelatives.findSome? fun rel =>
      if ex (pjoin (cwdRes.getD ".") rel) then some (pjoin (cwdRes.getD ".") rel)
      else none) = locateFromCwd cwdRes ex from rfl]
  cases env "TRADINGAGENTS_BACKEND_SCRIPT" with
  | none => simp [Option.or_eq_orElse]
  | some e => by_cases h : ex e <;> simp [h, Option.or_eq_orElse]

/-- Claim C4: `stop` is idempotent — from any state, a second `stop`
reaches the same final state and adds no kill effect, so two calls have
the combined effect of one; from Idle (`new`), `stop` is a no-op
producing no kill attempt. -/
theorem stop_idempotent (killRes : Child → Except String Unit)
    (s : BackendState) :
    (BackendState.stop killRes (BackendState.stop killRes s).1).1
      = (BackendState.stop killRes s).1 ∧
    (BackendState.stop killRes s).2
        ++ (BackendState.stop killRes (BackendState.stop killRes s).1).2
      = (BackendState.stop killRes s).2 ∧
    BackendState.stop killRes BackendState.new = (BackendState.new, []) := by
  cases s <;> simp [BackendState.stop, BackendState.new]

/-- Claim C5: when the locator finds no script, `spawn_backend` fails
with the not-found error and the setup hook leaves the state untouched —
from `new` the supervisor stays Idle with no stored handle, and the
failure surfaces only as the warning message. -/
theorem start_no_script_stays_idle (env : Env)
    (resolve : String → Option String) (cwdRes : Option String)
    (ex : String → Bool) (win : Bool)
    (spawnRes : SpawnCmd → Except String Child) (s : BackendState)
    (h : locate_backend_script env resolve cwdRes ex = none) :
    spawn_backend env resolve cwdRes ex win spawnRes
      = .error "run_backend.py not found" ∧
    setupStart (spawn_backend env resolve cwdRes ex win spawnRes) s
      = (s, some spawnWarning) ∧
    setupStart (spawn_backend env resolve cwdRes ex win spawnRes)
        BackendState.new
      = (BackendState.new, some spawnWarning) := by
  unfold spawn_backend
  rw [h]
  exact ⟨rfl, rfl, rfl⟩

/-- Witness for C5: with every variable unset, no resource resolved, a
failed cwd read and an all-false existence predicate, the locator
returns `none` and startup stays Idle with the warning. -/
theorem start_no_script_stays_idle_witness :
    locate_backend_script (fun _ => none) (fun _ => none) none
        (fun _ => false) = none ∧
    setupStart
        (spawn_backend (fun _ => none) (fun _ => none) none
          (fun _ => false) false (fun _ => .ok 0))
        BackendState.new
      = (BackendState.new, some spawnWarning) :=
  ⟨by decide,
    (start_no_script_stays_idle (fun _ => none) (fun _ => none) none
      (fun _ => false) false (fun _ => .ok 0) BackendState.new
      (by decide)).2.2⟩

/-- Claim C6: `stop` returns normally for every state and every kill
outcome — its result type carries no error, the state always transitions
to Idle with the handle discarded, and a failing kill (`.error`) is
merely recorded in the effect log, never propagated. -/
theorem stop_swallows_kill_failure
    (killRes : Child → Except String Unit) (s : BackendState)
    (c : Child) :
    (BackendState.stop killRes s).1 = none ∧
    BackendState.stop killRes (some c) = (none, [(c, killRes c)]) := by
  cases s <;> simp [BackendState.stop]

/-- Claim C7: `preferred_python` is total — its return type is `String`,
not `Option` or `Except`, and for every environment and existence
predicate the returned value is one of the three candidate forms
(override, venv-derived, platform default), so a value is always
produced. -/
theorem preferred_python_total (env : Env) (ex : String → Bool)
    (win : Bool) :
    preferred_python env ex win ∈
      (env "TRADINGAGENTS_PYTHON").toList
        ++ ((env "VIRTUAL_ENV").map fun v => venvCandidate v win).toList
        ++ [pythonDefault win] := by
  unfold preferred_python preferredPythonTail
  cases env "TRADINGAGENTS_PYTHON" with
  | none =>
      cases env "VIRTUAL_ENV" with
      | none => simp
      | some w => by_cases h : ex (venvCandidate w win) <;> simp [h]
  | some p =>
      by_cases hp : ex p
      · simp [hp]
      · cases env "VIRTUAL_ENV" with
        | none => simp [hp]
        | some w => by_cases h : ex (venvCandidate w win) <;> simp [hp, h]

/-- Claim C8: whenever the locator yields a script, `spawn_backend`
invokes the OS spawn on exactly the command whose program is the
resolved interpreter, whose argument list is the single script path, and
whose stdin/stdout/stderr are all null. -/
theorem spawn_backend_cmd_shape (env : Env)
    (resolve : String → Option String) (cwdRes : Option String)
    (ex : String → Bool) (win : Bool) (script : String)
    (h : locate_backend_script env resolve cwdRes ex = some script)
    (spawnRes : SpawnCmd → Except String Child) :
    spawn_backend env resolve cwdRes ex win spawnRes
      = spawnRes
          { program := preferred_python env ex win
            args := [script]
            stdinCfg := .nullStream
            stdoutCfg := .nullStream
            stderrCfg := .nullStream } := by
  unfold spawn_backend
  rw [h]

/-- Witness for C8: with the script override set to an existing `s.py`,
the spawn oracle receives a command with exactly one argument. -/
theorem spawn_backend_cmd_shape_witness :
    locate_backend_script
        (fun v => if v = "TRADINGAGENTS_BACKEND_SCRIPT" then some "s.py"
          else none)
        (fun _ => none) none (fun _ => true) = some "s.py" ∧
    spawn_backend
        (fun v => if v = "TRADINGAGENTS_BACKEND_SCRIPT" then some "s.py"
          else none)
        (fun _ => none) none (fun _ => true) false
        (fun cmd => .ok cmd.args.length)
      = .ok 1 :=
  ⟨by decide, by
    rw [spawn_backend_cmd_shape
      (fun v => if v = "TRADINGAGENTS_BACKEND_SCRIPT" then some "s.py"
        else none)
      (fun _ => none) none (fun _ => true) false "s.py" (by decide)
      (fun cmd => .ok cmd.args.length)]
    rfl⟩

/-- Claim C9: when reading the current working directory fails, the
locator substitutes the relative base `.` — the whole search behaves
exactly as with cwd `.`, and the working-directory phase still checks
`./run_backend.py` then `./../run_backend.py` before giving up. -/
theorem locate_cwd_failure_uses_dot (env : Env)
    (resolve : String → Option String) (ex : String → Bool) :
    locate_backend_script env resolve none ex
      = locate_backend_script env resolve (some ".") ex ∧
    locateFromCwd none ex
      = (["./run_backend.py", "./../run_backend.py"]).find? ex := by
  constructor
  · rfl
  · rw [show locateFromCwd none ex
        = (cwdRelatives.map (pjoin ".")).find? ex from
      findSome_join_eq "." ex cwdRelatives]
    rw [show cwdRelatives.map (pjoin ".")
        = ["./run_backend.py", "./../run_backend.py"] from by decide]

/-- Claim C10: `replace` has no Idle precondition — from every prior
state it stores exactly the new handle, and a previously stored handle
is dropped silently: the effect log is empty, so no termination signal
is sent to the prior child. -/
theorem replace_overwrites_silently (s : BackendState) (c : Child) :
    s.replace c = (some c, []) := rfl
